import Mathlib

/- Verification of the MentraOS client SDK (src/python/mentraos): a shallow
   embedding of the protocol values, the app-session message handling, the
   websocket client, the event dispatch loop, the subscription manager and
   the pipecat audio-output pacer, with theorems about their behaviour. -/

namespace MentraOS

/-- JSON-like values carried by wire messages (Python dict values). Nested
    objects are cons-encoded inside the inductive so equality stays
    derivable. -/
inductive JValue where
  | str (s : String)
  | bool (b : Bool)
  | num (n : Int)
  | bytes (len : Nat)
  | null
  | objNil
  | objCons (key : String) (val : JValue) (rest : JValue)
  deriving Repr, DecidableEq

/-- Lookup inside a cons-encoded nested object value. -/
def JValue.objGet : JValue → String → Option JValue
  | .objCons k v r, key => if k = key then some v else r.objGet key
  | _, _ => none

/-- Lookup with default inside a cons-encoded nested object value. -/
def JValue.objGetD (v : JValue) (k : String) (d : JValue) : JValue :=
  (v.objGet k).getD d

/-- Association-list form of a top-level Python dict with string keys. -/
abbrev JObj := List (String × JValue)

/-- Python membership test on a dict. -/
def hasKey (data : JObj) (k : String) : Bool :=
  data.any (fun p => p.1 = k)

/-- Python dict lookup returning the value bound to a key, if present. -/
def getKey (data : JObj) (k : String) : Option JValue :=
  (data.find? (fun p => p.1 = k)).map Prod.snd

/-- Python dict lookup with a default value. -/
def getKeyD (data : JObj) (k : String) (dflt : JValue) : JValue :=
  (getKey data k).getD dflt

/-- Wire value of MessageType.TPA_CONNECTION_ACK (protocol/messages.py). -/
def tpaConnectionAckType : String := "tpa_connection_ack"

/-- Exceptions raised by the session layer (core/exceptions.py). -/
inductive SdkError where
  | authentication (msg : String)
  | session (msg : String)
  | connection (msg : String)
  deriving Repr, DecidableEq

/-- Rendering of an exception as the string interpolated into log lines. -/
def SdkError.text : SdkError → String
  | .authentication m => m
  | .session m => m
  | .connection m => m

/-- Outbound protocol messages built by AppSession (protocol/messages.py). -/
inductive OutMsg where
  | connectionInit (sessionId packageName apiKey : String)
  | subscriptionUpdate (packageName : String) (subscriptions : List String)
      (sessionId : String)
  | displayEvent (sessionId packageName text : String)
  deriving Repr, DecidableEq

/-- Mutable state of an AppSession (core/app_session.py, constructor). The
    subscription set is carried as a duplicate-free list. -/
structure AppSessionState where
  sessionId : String
  packageName : String
  connected : Bool
  authenticated : Bool
  deviceInfo : JValue
  subscriptions : List String
  deriving Repr, DecidableEq

/-- SubscriptionManager.add (protocol/subscriptions.py lines 36-41): set
    insertion, returning the new set and whether the topic was newly added. -/
def SubscriptionManager.add (subs : List String) (t : String) :
    List String × Bool :=
  if t ∈ subs then (subs, false) else (subs ++ [t], true)

/-- SubscriptionManager.remove (protocol/subscriptions.py lines 43-48). -/
def SubscriptionManager.remove (subs : List String) (t : String) :
    List String × Bool :=
  if t ∈ subs then (subs.filter (fun x => x ≠ t), true) else (subs, false)

/-- Observable result of AppSession.send: the (unchanged) state, the messages
    enqueued on the transport send queue, and the warnings logged. -/
structure SendResult where
  state : AppSessionState
  enqueued : List OutMsg
  warnings : List String
  deriving Repr, DecidableEq

/-- AppSession.send (core/app_session.py lines 93-99): a no-op with a logged
    warning when the session is not connected, otherwise the message goes to
    the websocket client, which enqueues it. -/
def AppSession.send (st : AppSessionState) (msg : OutMsg) : SendResult :=
  if st.connected = false then
    { state := st, enqueued := [],
      warnings := ["Attempted to send message while not connected"] }
  else
    { state := st, enqueued := [msg], warnings := [] }

/-- AppSession._update_subscriptions (core/app_session.py lines 111-126):
    when connected, sends one subscription_update message carrying the full
    current subscription set. -/
def AppSession.updateSubscriptions (st : AppSessionState) : List OutMsg :=
  if st.connected = false then []
  else
    (AppSession.send st
      (OutMsg.subscriptionUpdate st.packageName st.subscriptions
        st.sessionId)).enqueued

/-- AppSession.subscribe (core/app_session.py lines 101-104): adds the topic
    and pushes an update only when the set actually changed. -/
def AppSession.subscribe (st : AppSessionState) (topic : String) :
    AppSessionState × List OutMsg :=
  match SubscriptionManager.add st.subscriptions topic with
  | (subs, true) =>
      let st2 := { st with subscriptions := subs }
      (st2, AppSession.updateSubscriptions st2)
  | (subs, false) => ({ st with subscriptions := subs }, [])

/-- Result of AppSession._handle_connection_ack when it does not raise: the
    new state, plus whether _initialize_subscriptions was invoked. -/
structure AckOk where
  state : AppSessionState
  initializedSubscriptions : Bool
  deriving Repr, DecidableEq

/-- Error string taken from the ack payload, as in data.get with default. -/
def ackErrorText (data : JObj) : String :=
  match getKey data "error" with
  | some (.str s) => s
  | _ => "Authentication failed"

/-- AppSession._handle_connection_ack (core/app_session.py lines 194-215):
    an ack carrying an error key raises AuthenticationError before any state
    change; otherwise the session is marked authenticated, device info is
    snapshotted from augmentosSettings (falling back to mentraosSettings),
    and subscription initialization is triggered. The success field is never
    consulted. -/
def AppSession.handleConnectionAck (data : JObj) (st : AppSessionState) :
    Except SdkError AckOk :=
  if hasKey data "error" then
    .error (.authentication (ackErrorText data))
  else
    .ok { state :=
            { st with
              authenticated := true,
              deviceInfo :=
                getKeyD data "augmentosSettings"
                  (getKeyD data "mentraosSettings" .objNil) },
          initializedSubscriptions := true }

/-- Side effects recorded while handling one inbound message. -/
inductive SessionAction where
  | emitAudioChunk (len : Nat)
  | emitEvent (msg : JObj)
  | initSubscriptions
  | stopSession
  deriving Repr, DecidableEq

/-- State left by AppSession.stop (core/app_session.py lines 79-91). -/
def AppSession.stopState (st : AppSessionState) : AppSessionState :=
  { st with subscriptions := [], connected := false, authenticated := false }

/-- Transcription event dict built inside _handle_message for data_stream
    messages (core/app_session.py lines 161-170). -/
def transcriptionEventOf (data : JObj) (sessionId : String) : JObj :=
  let sd : JValue := getKeyD data "data" .objNil
  [("type", .str "transcription"),
   ("sessionId", .str sessionId),
   ("text", sd.objGetD "text" (.str "")),
   ("isFinal", sd.objGetD "isFinal" (.bool false)),
   ("language", sd.objGetD "transcribeLanguage" (.str "en-US")),
   ("timestamp", getKeyD data "timestamp" (.str ""))]

/-- Body of AppSession._handle_message (core/app_session.py lines 150-189),
    before its catch-all except clause: branch order is binary, data_stream,
    connection ack, app_stopped, then generic event emission. The only
    raising path is the ack handler, which raises before mutating state. -/
def AppSession.handleMessageBody (data : JObj) (st : AppSessionState) :
    Except SdkError (AppSessionState × List SessionAction) :=
  if getKey data "type" = some (.str "binary") then
    .ok (st,
      [SessionAction.emitAudioChunk
        (match getKey data "data" with
         | some (.bytes n) => n
         | _ => 0)])
  else if getKey data "type" = some (.str "data_stream") then
    if getKeyD data "streamType" (.str "") = .str "transcription" then
      .ok (st, [SessionAction.emitEvent (transcriptionEventOf data st.sessionId)])
    else
      .ok (st, [])
  else if getKey data "type" = some (.str tpaConnectionAckType) then
    match AppSession.handleConnectionAck data st with
    | .error e => .error e
    | .ok r =>
        .ok (r.state,
          if r.initializedSubscriptions then [SessionAction.initSubscriptions]
          else [])
  else if getKey data "type" = some (.str "app_stopped") then
    .ok (AppSession.stopState st,
      [SessionAction.emitEvent data, SessionAction.stopSession])
  else
    .ok (st, [SessionAction.emitEvent data])

/-- Observable outcome of AppSession._handle_message: resulting state, the
    recorded side effects, the error log lines, and the exception escaping
    the handler (always none: line 191-192 catches every exception). -/
structure HandleResult where
  state : AppSessionState
  actions : List SessionAction
  loggedErrors : List String
  escaped : Option SdkError
  deriving Repr, DecidableEq

/-- AppSession._handle_message (core/app_session.py lines 148-192): runs the
    body and catches any exception, logging it. The raising path mutates no
    state before raising, so the pre-call state is preserved there. -/
def AppSession.handleMessage (data : JObj) (st : AppSessionState) :
    HandleResult :=
  match AppSession.handleMessageBody data st with
  | .ok (st2, acts) =>
      { state := st2, actions := acts, loggedErrors := [], escaped := none }
  | .error e =>
      { state := st, actions := [],
        loggedErrors := ["Error handling message: " ++ e.text],
        escaped := none }

/-- Reconnect parameters of WebSocketClient (core/websocket_client.py lines
    27-29 defaults): initial interval 5 s. -/
def reconnectInterval : ℚ := 5

/-- Reconnect ceiling (core/websocket_client.py line 28 default): 60 s. -/
def maxReconnectInterval : ℚ := 60

/-- Reconnect decay factor (core/websocket_client.py line 29 default): 1.5. -/
def reconnectDecay : ℚ := 3 / 2

/-- Interval update after one failed reconnect attempt (core/
    websocket_client.py lines 183-186). -/
def backoffStep (d : ℚ) : ℚ :=
  min (d * reconnectDecay) maxReconnectInterval

/-- Interval slept before the (n+1)-th consecutive failed reconnect attempt,
    counting from a fresh or freshly reconnected client: connect() resets the
    current interval to the initial one (line 63), the loop in _reconnect
    sleeps the current interval (line 175) and applies backoffStep on
    failure. -/
def reconnectDelay : Nat → ℚ
  | 0 => reconnectInterval
  | n + 1 => backoffStep (reconnectDelay n)

/-- Effect of a successful connect() on the stored reconnect interval
    (core/websocket_client.py line 63): reset to the initial interval,
    whatever its current value. -/
def connectResetInterval (_current : ℚ) : ℚ := reconnectInterval

/-- Observable state of a WebSocketClient relevant to disconnect():
    the running flag, whether the physical link is open, whether the
    reconnect and receive tasks are alive, whether an on_disconnect callback
    is registered, and how many times that callback has been invoked. -/
structure WSClientState where
  running : Bool
  websocketOpen : Bool
  reconnectTaskActive : Bool
  receiveTaskActive : Bool
  hasOnDisconnect : Bool
  onDisconnectCalls : Nat
  deriving Repr, DecidableEq

/-- WebSocketClient.disconnect (core/websocket_client.py lines 80-101):
    clears the running flag, cancels the reconnect and receive tasks when
    alive, closes and drops the websocket, then invokes the on_disconnect
    callback whenever one is registered — on every call, with no guard. -/
def WSClient.disconnect (s : WSClientState) : WSClientState :=
  let s1 : WSClientState :=
    { s with running := false, reconnectTaskActive := false,
             receiveTaskActive := false, websocketOpen := false }
  if s1.hasOnDisconnect then
    { s1 with onDisconnectCalls := s1.onDisconnectCalls + 1 }
  else s1

/-- Connection-state projection of a WSClientState: everything except the
    callback invocation counter. -/
def WSClient.connState (s : WSClientState) :
    Bool × Bool × Bool × Bool × Bool :=
  (s.running, s.websocketOpen, s.reconnectTaskActive, s.receiveTaskActive,
   s.hasOnDisconnect)

/-- Python int() applied to a rational: truncation toward zero, computed on
    the normalized numerator and denominator. All inputs at the modelled
    call sites are dyadic rationals on which the source float arithmetic is
    exact, so the rational model agrees with the code. -/
def pyInt (q : ℚ) : ℤ :=
  q.num.tdiv (q.den : ℤ)

/-- Frame cadence of the silent-frame task (pipecat/transport.py line 306):
    20 ms per frame. -/
def frameDuration : ℚ := 1 / 50

/-- Remaining playback time computed on TTSStoppedFrame (pipecat/
    transport.py line 166): audio duration minus elapsed time plus the fixed
    500 ms playback buffer. -/
def remainingTime (audioDuration elapsed : ℚ) : ℚ :=
  audioDuration - elapsed + 1 / 2

/-- Total silent duration (pipecat/transport.py line 169): remaining time
    plus the bot_stopped_speaking_delay startup compensation (default 2.5 s,
    line 106). -/
def totalSilentDuration (audioDuration elapsed delay : ℚ) : ℚ :=
  remainingTime audioDuration elapsed + delay

/-- Number of synthetic frames (pipecat/transport.py line 307):
    int(duration / frame_duration). -/
def numSilentFrames (duration : ℚ) : ℤ :=
  pyInt (duration / frameDuration)

/-- Samples per synthetic frame (pipecat/transport.py line 310):
    int(sample_rate * frame_duration). -/
def samplesPerFrame (sampleRate : Nat) : ℤ :=
  pyInt ((sampleRate : ℚ) * frameDuration)

/-- Byte length of each synthetic frame (pipecat/transport.py line 311):
    two bytes per 16-bit sample. -/
def silentFrameByteLen (sampleRate : Nat) : ℤ :=
  samplesPerFrame sampleRate * 2

/-- Byte-length formula exactly as the specification words it:
    2 * round(sample_rate * 0.02), with round-to-nearest. -/
def claimedSilentFrameByteLen (sampleRate : Nat) : ℤ :=
  2 * round ((sampleRate : ℚ) * frameDuration)

/-- One synthetic audio frame emitted by _send_silent_frames (pipecat/
    transport.py lines 319-329): all-zero payload, mono, at the tracked
    sample rate. -/
structure SilentFrame where
  byteLen : ℤ
  allZero : Bool
  sampleRate : Nat
  numChannels : Nat
  deriving Repr, DecidableEq

/-- Frames emitted by _send_silent_frames (pipecat/transport.py lines
    301-338): exactly numSilentFrames copies of the same all-zero frame,
    each routed through the parent process_frame delivery path. -/
def sendSilentFrames (sampleRate : Nat) (duration : ℚ) : List SilentFrame :=
  List.replicate (numSilentFrames duration).toNat
    { byteLen := silentFrameByteLen sampleRate, allZero := true,
      sampleRate := sampleRate, numChannels := 1 }

/-- TTSStoppedFrame handling (pipecat/transport.py lines 158-184): when a
    stream was being tracked, computes the total silent duration and starts
    the silent-frame task only when that duration is positive. -/
def onTTSStopped (sampleRate totalSamples : Nat) (elapsed delay : ℚ) :
    List SilentFrame :=
  if 0 < totalSamples then
    if 0 < totalSilentDuration ((totalSamples : ℚ) / (sampleRate : ℚ))
            elapsed delay then
      sendSilentFrames sampleRate
        (totalSilentDuration ((totalSamples : ℚ) / (sampleRate : ℚ))
          elapsed delay)
    else []
  else []

/-- Event as seen by the dispatch loop: its type key and an identifying
    payload standing for the rest of the event record. -/
structure Ev where
  type : String
  payload : Nat
  deriving Repr, DecidableEq

/-- Outcome of one handler invocation: normal return, or the message of the
    exception it raised. -/
abbrev HandlerOutcome := Except String Unit

/-- Registered handlers of an EventManager, keyed by event type string. -/
abbrev Handlers := List (String × List (Ev → HandlerOutcome))

/-- Handler list for one event key (event_manager.py line 111). -/
def handlersFor (hs : Handlers) (key : String) :
    List (Ev → HandlerOutcome) :=
  (((hs.find? (fun p => p.1 = key)).map Prod.snd)).getD []

/-- Trace items recorded by the dispatch loop: an event pulled from the
    queue (dispatch of that event begins), a handler invocation completing
    with its outcome, or an error log line for a raised exception. -/
inductive DispatchItem where
  | pulled (e : Ev)
  | handlerRan (e : Ev) (idx : Nat) (outcome : HandlerOutcome)
  | errorLogged (key : String) (msg : String)

/-- Trace of the handler invocations of one event, in registration order of
    the handlers (their tasks run concurrently; the batch is complete before
    the loop continues). -/
def handlerItems (e : Ev) (results : List HandlerOutcome) :
    List DispatchItem :=
  results.enum.map (fun p => DispatchItem.handlerRan e p.1 p.2)

/-- Log line produced for one exceptional handler outcome
    (event_manager.py line 129). -/
def logOf (key : String) (r : HandlerOutcome) : Option DispatchItem :=
  match r with
  | .error m =>
      some (DispatchItem.errorLogged key ("Handler error for " ++ key ++
        ": " ++ m))
  | .ok _ => none

/-- Log lines produced after gathering all outcomes of one event
    (event_manager.py lines 126-129). -/
def logItems (key : String) (results : List HandlerOutcome) :
    List DispatchItem :=
  results.filterMap (logOf key)

/-- Dispatch of a single event (event_manager.py lines 109-129): every
    registered handler for its key is started, the loop gathers all their
    outcomes (return_exceptions semantics: a raising handler never cancels
    its siblings), and each exceptional outcome is logged afterwards. -/
def dispatchEvent (hs : Handlers) (e : Ev) : List DispatchItem :=
  DispatchItem.pulled e ::
    (handlerItems e ((handlersFor hs e.type).map (fun h => h e)) ++
     logItems e.type ((handlersFor hs e.type).map (fun h => h e)))

/-- Dispatch loop (event_manager.py lines 96-134): pulls one item at a time
    from the single FIFO queue, fully dispatches it (awaiting all handler
    outcomes) before pulling the next, and stops on the sentinel. -/
def dispatchLoop (hs : Handlers) (queue : List (Option Ev)) :
    List DispatchItem :=
  match queue with
  | [] => []
  | none :: _ => []
  | some e :: rest => dispatchEvent hs e ++ dispatchLoop hs rest

/-- Event of a pulled trace item, if it is one. -/
def beginOf : DispatchItem → Option Ev
  | .pulled e => some e
  | _ => none

/-- Event a trace item belongs to, when it names one. -/
def itemEvent : DispatchItem → Option Ev
  | .pulled e => some e
  | .handlerRan e _ _ => some e
  | .errorLogged _ _ => none

/-- Handler index of a handler-invocation trace item, if it is one. -/
def handlerIdxOf : DispatchItem → Option Nat
  | .handlerRan _ i _ => some i
  | _ => none

/-- Heap of Python dict objects, used to model reference semantics of the
    device_info property: each cell is one dict, addressed by index. -/
structure Heap where
  cells : List JObj
  deriving Repr, DecidableEq

/-- Contents of a heap cell (missing references read as empty). -/
def Heap.get (h : Heap) (r : Nat) : JObj :=
  h.cells.getD r []

/-- Allocation of a fresh dict cell, returning its reference. -/
def Heap.alloc (h : Heap) (d : JObj) : Heap × Nat :=
  ({ cells := h.cells ++ [d] }, h.cells.length)

/-- Python dict mutations applicable to a dict object. -/
inductive DictMut where
  | set (k : String) (v : JValue)
  | del (k : String)
  deriving Repr, DecidableEq

/-- Python dict assignment: replace the binding in place or append it. -/
def dictSet (d : JObj) (k : String) (v : JValue) : JObj :=
  if hasKey d k then d.map (fun p => if p.1 = k then (k, v) else p)
  else d ++ [(k, v)]

/-- Python dict deletion (del, superset of the claim's mutations). -/
def dictDel (d : JObj) (k : String) : JObj :=
  d.filter (fun p => p.1 ≠ k)

/-- Application of one mutation to a dict. -/
def applyMut (d : JObj) : DictMut → JObj
  | .set k v => dictSet d k v
  | .del k => dictDel d k

/-- In-place mutation of the dict behind a reference. -/
def Heap.mutate (h : Heap) (r : Nat) (m : DictMut) : Heap :=
  { cells := h.cells.set r (applyMut (Heap.get h r) m) }

/-- AppSession.device_info (core/app_session.py lines 241-244): returns
    self._device_info.copy(), modelled as allocating a fresh cell holding
    the same top-level contents as the internal dict. -/
def deviceInfoRead (h : Heap) (internal : Nat) : Heap × Nat :=
  Heap.alloc h (Heap.get h internal)

/-- Concrete inbound acknowledgment carrying an error field, using the wire
    type string the code matches for acks. -/
def errorAckMsg : JObj :=
  [("type", .str "tpa_connection_ack"), ("sessionId", .str "s1"),
   ("success", .bool false), ("error", .str "bad key")]

/-- Concrete inbound acknowledgment with success false and no error key. -/
def noErrorAckMsg : JObj :=
  [("type", .str "tpa_connection_ack"), ("sessionId", .str "s1"),
   ("success", .bool false)]

/-- Concrete connected, unauthenticated session state. -/
def sampleState : AppSessionState :=
  { sessionId := "s1", packageName := "com.example.app", connected := true,
    authenticated := false, deviceInfo := .objNil, subscriptions := [] }

/-- Concrete disconnected session state. -/
def sampleOffline : AppSessionState :=
  { sampleState with connected := false }

/-- Concrete connected websocket client with a registered on_disconnect
    callback, not yet invoked. -/
def sampleClient : WSClientState :=
  { running := true, websocketOpen := true, reconnectTaskActive := false,
    receiveTaskActive := true, hasOnDisconnect := true,
    onDisconnectCalls := 0 }

/-- Concrete handler table: two handlers on one topic, the first raising. -/
def demoHandlers : Handlers :=
  [("transcription",
    [fun _ => Except.error "boom", fun _ => Except.ok ()])]

/-- Concrete events for dispatch instantiations. -/
def demoEv : Ev := { type := "transcription", payload := 1 }

/-- Second concrete event, on the same topic. -/
def demoEv2 : Ev := { type := "transcription", payload := 2 }

/-- Concrete two-cell heap whose first cell is the internal device dict. -/
def sampleHeap : Heap :=
  { cells := [[("modelName", JValue.str "Even Realities G1")], []] }

/-- Bridge from the Python truncation to the mathematical floor on
    nonnegative rationals. -/
theorem pyInt_eq_floor (q : ℚ) (h : 0 ≤ q) : pyInt q = ⌊q⌋ := by
  rw [pyInt, Int.tdiv_eq_ediv (Rat.num_nonneg.mpr h) (by positivity),
    Rat.floor_def]

/-- C8: sending while the session is not connected changes nothing, enqueues
    nothing on the transport send queue, and only logs a warning
    (app_session.py lines 93-99). -/
theorem sendNotConnectedNoOp (st : AppSessionState) (m : OutMsg)
    (h : st.connected = false) :
    AppSession.send st m =
      { state := st, enqueued := [],
        warnings := ["Attempted to send message while not connected"] } := by
  simp [AppSession.send, h]

/-- Witness for sendNotConnectedNoOp at a concrete disconnected state. -/
theorem sendNotConnectedNoOpWitness :
    sampleOffline.connected = false ∧
    AppSession.send sampleOffline
        (OutMsg.connectionInit "s1" "com.example.app" "k") =
      { state := sampleOffline, enqueued := [],
        warnings := ["Attempted to send message while not connected"] } :=
  ⟨by decide,
   sendNotConnectedNoOp sampleOffline
     (OutMsg.connectionInit "s1" "com.example.app" "k") (by decide)⟩

/-- C4: subscribing to a topic already in the set leaves the state unchanged
    and sends no message; subscribing to a new topic while connected adds it
    and sends exactly one subscription_update carrying the full resulting
    set (app_session.py lines 101-126, subscriptions.py lines 36-41). -/
theorem subscribeIdempotent (st : AppSessionState) (t : String) :
    (t ∈ st.subscriptions → AppSession.subscribe st t = (st, [])) ∧
    (t ∉ st.subscriptions → st.connected = true →
      (AppSession.subscribe st t).1 =
        { st with subscriptions := st.subscriptions ++ [t] } ∧
      (AppSession.subscribe st t).2 =
        [OutMsg.subscriptionUpdate st.packageName (st.subscriptions ++ [t])
          st.sessionId] ∧
      (∀ x, x ∈ (AppSession.subscribe st t).1.subscriptions ↔
        (x ∈ st.subscriptions ∨ x = t))) := by
  constructor
  · intro hmem
    simp [AppSession.subscribe, SubscriptionManager.add, hmem]
  · intro hmem hconn
    simp [AppSession.subscribe, SubscriptionManager.add, hmem,
      AppSession.updateSubscriptions, AppSession.send, hconn]

/-- Witness for subscribeIdempotent: both branches at concrete inputs. -/
theorem subscribeIdempotentWitness :
    ("audio_chunk" ∈ sampleState.subscriptions ++ ["audio_chunk"]) ∧
    ("transcription:en-US" ∉ sampleState.subscriptions) ∧
    (sampleState.connected = true) ∧
    AppSession.subscribe
        { sampleState with subscriptions := ["audio_chunk"] } "audio_chunk" =
      ({ sampleState with subscriptions := ["audio_chunk"] }, []) ∧
    (AppSession.subscribe sampleState "transcription:en-US").2 =
      [OutMsg.subscriptionUpdate "com.example.app" ["transcription:en-US"]
        "s1"] := by
  refine ⟨by decide, by decide, by decide, ?_, ?_⟩
  · exact (subscribeIdempotent
      { sampleState with subscriptions := ["audio_chunk"] }
      "audio_chunk").1 (by decide)
  · exact ((subscribeIdempotent sampleState "transcription:en-US").2
      (by decide) (by decide)).2.1

/-- C9: an acknowledgment without an error key marks the session
    authenticated and triggers subscription initialization, whatever its
    success field says (app_session.py lines 194-215: only the error key is
    consulted). -/
theorem connectionAckNoErrorAuthenticates (data : JObj)
    (st : AppSessionState)
    (hty : getKey data "type" = some (JValue.str tpaConnectionAckType))
    (herr : hasKey data "error" = false) :
    (AppSession.handleMessage data st).state.authenticated = true ∧
    SessionAction.initSubscriptions ∈
      (AppSession.handleMessage data st).actions ∧
    (AppSession.handleMessage data st).escaped = none := by
  simp [AppSession.handleMessage, AppSession.handleMessageBody, hty,
    AppSession.handleConnectionAck, herr, tpaConnectionAckType]

/-- Witness for connectionAckNoErrorAuthenticates at an ack with success
    false and no error key. -/
theorem connectionAckNoErrorAuthenticatesWitness :
    getKey noErrorAckMsg "type" =
      some (JValue.str tpaConnectionAckType) ∧
    hasKey noErrorAckMsg "error" = false ∧
    ((AppSession.handleMessage noErrorAckMsg sampleState).state.authenticated
        = true ∧
      SessionAction.initSubscriptions ∈
        (AppSession.handleMessage noErrorAckMsg sampleState).actions ∧
      (AppSession.handleMessage noErrorAckMsg sampleState).escaped = none) :=
  ⟨by decide, by decide,
   connectionAckNoErrorAuthenticates noErrorAckMsg sampleState (by decide)
     (by decide)⟩

/-- C1 counterexample: on the concrete error acknowledgment the
    AuthenticationError raised inside the ack handler is caught and logged
    by the message handler itself, so no exception escapes message handling
    and session start cannot fail with AuthenticationError; the claim that
    it propagates is false on the code. -/
theorem connectionAckErrorCounterexample :
    (AppSession.handleMessage errorAckMsg sampleState).escaped = none ∧
    (AppSession.handleMessage errorAckMsg sampleState).escaped ≠
      some (SdkError.authentication "bad key") ∧
    (AppSession.handleMessage errorAckMsg sampleState).loggedErrors =
      ["Error handling message: bad key"] ∧
    (AppSession.handleMessage errorAckMsg sampleState).state.authenticated
      = false := by
  decide

/-- C1 (amended): an acknowledgment carrying an error field makes the ack
    handler raise AuthenticationError before any state change, so the
    session never becomes authenticated; the exception is caught and logged
    inside the message handler and never propagates, leaving session start
    unaffected. -/
theorem connectionAckErrorHandling (data : JObj) (st : AppSessionState)
    (hty : getKey data "type" = some (JValue.str tpaConnectionAckType))
    (herr : hasKey data "error" = true) :
    AppSession.handleConnectionAck data st =
      Except.error (SdkError.authentication (ackErrorText data)) ∧
    (AppSession.handleMessage data st).state = st ∧
    (AppSession.handleMessage data st).state.authenticated =
      st.authenticated ∧
    (AppSession.handleMessage data st).escaped = none ∧
    (AppSession.handleMessage data st).loggedErrors =
      ["Error handling message: " ++ ackErrorText data] := by
  simp [AppSession.handleMessage, AppSession.handleMessageBody, hty,
    AppSession.handleConnectionAck, herr, tpaConnectionAckType,
    SdkError.text]

/-- Witness for connectionAckErrorHandling at the concrete error ack. -/
theorem connectionAckErrorHandlingWitness :
    getKey errorAckMsg "type" = some (JValue.str tpaConnectionAckType) ∧
    hasKey errorAckMsg "error" = true ∧
    (AppSession.handleConnectionAck errorAckMsg sampleState =
        Except.error (SdkError.authentication (ackErrorText errorAckMsg)) ∧
      (AppSession.handleMessage errorAckMsg sampleState).state =
        sampleState ∧
      (AppSession.handleMessage errorAckMsg sampleState).state.authenticated
        = sampleState.authenticated ∧
      (AppSession.handleMessage errorAckMsg sampleState).escaped = none ∧
      (AppSession.handleMessage errorAckMsg sampleState).loggedErrors =
        ["Error handling message: " ++ ackErrorText errorAckMsg]) :=
  ⟨by decide, by decide,
   connectionAckErrorHandling errorAckMsg sampleState (by decide)
     (by decide)⟩

/-- Disconnect preserves whether a callback is registered. -/
theorem disconnect_hasOnDisconnect (s : WSClientState) :
    (WSClient.disconnect s).hasOnDisconnect = s.hasOnDisconnect := by
  simp only [WSClient.disconnect]
  split <;> rfl

/-- Disconnect bumps the callback counter exactly when a callback is
    registered. -/
theorem disconnect_calls (s : WSClientState) :
    (WSClient.disconnect s).onDisconnectCalls =
      s.onDisconnectCalls + (if s.hasOnDisconnect = true then 1 else 0) := by
  simp only [WSClient.disconnect]
  split <;> simp_all

/-- Iterated disconnect also preserves callback registration. -/
theorem disconnect_iterate_hasOnDisconnect (s : WSClientState) (n : Nat) :
    ((WSClient.disconnect)^[n] s).hasOnDisconnect = s.hasOnDisconnect := by
  induction n with
  | zero => rfl
  | succ k ih =>
      rw [Function.iterate_succ_apply', disconnect_hasOnDisconnect, ih]

/-- C7 counterexample: two disconnect calls on a concrete connected channel
    with a registered callback invoke the callback twice, not exactly
    once — websocket_client.py lines 98-99 run on every call, unguarded. -/
theorem disconnectCallbackCounterexample :
    (WSClient.disconnect (WSClient.disconnect sampleClient)).onDisconnectCalls
      = 2 ∧
    (WSClient.disconnect (WSClient.disconnect sampleClient)).onDisconnectCalls
      ≠ 1 := by
  decide

/-- C7 (amended): every disconnect call clears the running flag, cancels the
    reconnect and receive tasks, and closes the link; repeated calls are
    idempotent on that connection state; but the on-disconnect callback runs
    once per call, so n calls invoke it n times when one is registered, not
    exactly once. -/
theorem disconnectIdempotentState (s : WSClientState) (n : Nat) :
    (WSClient.disconnect s).running = false ∧
    (WSClient.disconnect s).reconnectTaskActive = false ∧
    (WSClient.disconnect s).receiveTaskActive = false ∧
    (WSClient.disconnect s).websocketOpen = false ∧
    WSClient.connState (WSClient.disconnect (WSClient.disconnect s)) =
      WSClient.connState (WSClient.disconnect s) ∧
    ((WSClient.disconnect)^[n] s).onDisconnectCalls =
      s.onDisconnectCalls + (if s.hasOnDisconnect = true then n else 0) := by
  refine ⟨?_, ?_, ?_, ?_, ?_, ?_⟩
  · simp only [WSClient.disconnect]; split <;> rfl
  · simp only [WSClient.disconnect]; split <;> rfl
  · simp only [WSClient.disconnect]; split <;> rfl
  · simp only [WSClient.disconnect]; split <;> rfl
  · simp only [WSClient.connState, WSClient.disconnect]; split <;> rfl
  · induction n with
    | zero => simp
    | succ k ih =>
        rw [Function.iterate_succ_apply', disconnect_calls, ih,
          disconnect_iterate_hasOnDisconnect]
        by_cases hcb : s.hasOnDisconnect = true
        · simp [hcb]; omega
        · simp [hcb]

/-- Closed form of the reconnect delay sequence. -/
theorem reconnectDelay_closed_form (n : Nat) :
    reconnectDelay n = min (5 * (3 / 2 : ℚ) ^ n) 60 := by
  induction n with
  | zero =>
      rw [reconnectDelay, reconnectInterval, pow_zero, mul_one]
      rw [min_eq_left (by norm_num)]
  | succ k ih =>
      rw [reconnectDelay, backoffStep, ih, reconnectDecay,
        maxReconnectInterval]
      rcases le_total (5 * (3 / 2 : ℚ) ^ k) 60 with h | h
      · rw [min_eq_left h, pow_succ, ← mul_assoc]
      · have h2 : (60 : ℚ) ≤ 5 * (3 / 2) ^ (k + 1) := by
          have h3 : (60 : ℚ) * (3 / 2) ≤ (5 * (3 / 2) ^ k) * (3 / 2) :=
            mul_le_mul_of_nonneg_right h (by norm_num)
          rw [pow_succ, ← mul_assoc]
          linarith
        rw [min_eq_right h, min_eq_right (by norm_num : (60 : ℚ) ≤ 60 * (3 / 2)),
          min_eq_right h2]

/-- C3: with the default parameters (initial 5 s, decay 1.5, ceiling 60 s)
    the delay slept before the (n+1)-th consecutive failed reconnect attempt
    is min (5 * 1.5 ^ n) 60 — the claim indexes the same sequence from 1 —
    it never exceeds 60 s, and a successful connect resets the stored
    interval to the initial 5 s whatever its current value. -/
theorem reconnectBackoffSequence (n : Nat) (d : ℚ) :
    reconnectDelay n = min (5 * (3 / 2 : ℚ) ^ n) 60 ∧
    reconnectDelay n ≤ 60 ∧
    connectResetInterval d = 5 := by
  refine ⟨reconnectDelay_closed_form n, ?_, rfl⟩
  rw [reconnectDelay_closed_form n]
  exact min_le_right _ _

/-- Python int() of an integer-valued rational is that integer. -/
theorem pyInt_intCast (n : ℤ) : pyInt ((n : ℚ)) = n := by
  simp [pyInt, Rat.num_intCast, Rat.den_intCast]

/-- The 4-second silent duration yields 200 frame slots. -/
theorem numSilentFrames_four : numSilentFrames 4 = 200 := by
  have h : (4 : ℚ) / frameDuration = ((200 : ℤ) : ℚ) := by
    norm_num [frameDuration]
  rw [numSilentFrames, h, pyInt_intCast]

/-- C2 (amended): in the claimed scenario the pacer computes remaining = 1.5 s
    and total = 4 s and emits exactly 200 synthetic all-zero 20 ms frames,
    each of byte length 2 * int(sample_rate * 0.02) — truncation, as coded,
    rather than the rounding the claim states, the two agreeing whenever the
    sample rate is a multiple of 50 — and a nonpositive total duration emits
    no synthetic frames. -/
theorem silentFramesScenario (sampleRate : Nat) (hsr : 0 < sampleRate) :
    remainingTime 3 2 = 3 / 2 ∧
    totalSilentDuration 3 2 (5 / 2) = 4 ∧
    (onTTSStopped sampleRate (3 * sampleRate) 2 (5 / 2)).length = 200 ∧
    (∀ f ∈ onTTSStopped sampleRate (3 * sampleRate) 2 (5 / 2),
      f.byteLen = 2 * pyInt ((sampleRate : ℚ) * frameDuration) ∧
      f.allZero = true) ∧
    (∀ totalSamples : Nat, ∀ elapsed delay : ℚ,
      totalSilentDuration ((totalSamples : ℚ) / (sampleRate : ℚ)) elapsed
          delay ≤ 0 →
      onTTSStopped sampleRate totalSamples elapsed delay = []) := by
  have hr0 : (sampleRate : ℚ) ≠ 0 := Nat.cast_ne_zero.mpr hsr.ne'
  have hdur : ((3 * sampleRate : ℕ) : ℚ) / (sampleRate : ℚ) = 3 := by
    push_cast
    field_simp
  have htot : totalSilentDuration 3 2 (5 / 2) = 4 := by
    norm_num [totalSilentDuration, remainingTime]
  have hrun : onTTSStopped sampleRate (3 * sampleRate) 2 (5 / 2) =
      sendSilentFrames sampleRate 4 := by
    unfold onTTSStopped
    rw [if_pos (by omega : 0 < 3 * sampleRate), hdur, htot,
      if_pos (by norm_num : (0 : ℚ) < 4)]
  refine ⟨by norm_num [remainingTime], htot, ?_, ?_, ?_⟩
  · rw [hrun, sendSilentFrames, List.length_replicate, numSilentFrames_four]
    rfl
  · intro f hf
    rw [hrun, sendSilentFrames] at hf
    have hfe := List.eq_of_mem_replicate hf
    subst hfe
    refine ⟨?_, rfl⟩
    show silentFrameByteLen sampleRate = _
    rw [silentFrameByteLen, samplesPerFrame, mul_comm]
  · intro ts elapsed delay hle
    unfold onTTSStopped
    by_cases hts : 0 < ts
    · rw [if_pos hts, if_neg (not_lt.mpr hle)]
    · rw [if_neg hts]

/-- Witness for silentFramesScenario at the default 24 kHz sample rate. -/
theorem silentFramesScenarioWitness :
    0 < 24000 ∧
    (remainingTime 3 2 = 3 / 2 ∧
     totalSilentDuration 3 2 (5 / 2) = 4 ∧
     (onTTSStopped 24000 (3 * 24000) 2 (5 / 2)).length = 200 ∧
     (∀ f ∈ onTTSStopped 24000 (3 * 24000) 2 (5 / 2),
       f.byteLen = 2 * pyInt (((24000 : ℕ) : ℚ) * frameDuration) ∧
       f.allZero = true) ∧
     (∀ totalSamples : Nat, ∀ elapsed delay : ℚ,
       totalSilentDuration ((totalSamples : ℚ) / ((24000 : ℕ) : ℚ)) elapsed
           delay ≤ 0 →
       onTTSStopped 24000 totalSamples elapsed delay = [])) :=
  ⟨by decide, silentFramesScenario 24000 (by decide)⟩

/-- C2 counterexample: at sample rate 24030 the emitted silent frames have
    byte length 2 * int(24030 * 0.02) = 960, while the claimed formula
    2 * round(24030 * 0.02) = 962; the claim is false as stated. -/
theorem silentFrameByteLenCounterexample :
    (onTTSStopped 24030 72090 2 (5 / 2)).length = 200 ∧
    (onTTSStopped 24030 72090 2 (5 / 2)).map SilentFrame.byteLen =
      List.replicate 200 (960 : ℤ) ∧
    claimedSilentFrameByteLen 24030 = 962 ∧
    ((960 : ℤ) = 962 → False) := by
  have hdur : ((72090 : ℕ) : ℚ) / ((24030 : ℕ) : ℚ) = 3 := by
    norm_num
  have htot : totalSilentDuration 3 2 (5 / 2) = 4 := by
    norm_num [totalSilentDuration, remainingTime]
  have hbl : silentFrameByteLen 24030 = 960 := by
    rw [silentFrameByteLen, samplesPerFrame, frameDuration,
      pyInt_eq_floor _ (by norm_num)]
    norm_num
  have hrun : onTTSStopped 24030 72090 2 (5 / 2) =
      sendSilentFrames 24030 4 := by
    unfold onTTSStopped
    rw [if_pos (by norm_num : 0 < 72090), hdur, htot,
      if_pos (by norm_num : (0 : ℚ) < 4)]
  have hframes : onTTSStopped 24030 72090 2 (5 / 2) =
      List.replicate 200
        { byteLen := 960, allZero := true, sampleRate := 24030,
          numChannels := 1 } := by
    rw [hrun, sendSilentFrames, numSilentFrames_four, hbl]
    rfl
  refine ⟨?_, ?_, ?_, by decide⟩
  · rw [hframes, List.length_replicate]
  · rw [hframes, List.map_replicate]
  · rw [claimedSilentFrameByteLen, frameDuration, round_eq]
    norm_num

/-- Handler-invocation items never mark the begin of a dispatch. -/
theorem beginOf_handlerItems (e : Ev) (results : List HandlerOutcome) :
    ∀ it ∈ handlerItems e results, beginOf it = none := by
  intro it hit
  rcases List.mem_map.mp hit with ⟨p, _, rfl⟩
  rfl

/-- Log items never mark the begin of a dispatch. -/
theorem beginOf_logItems (key : String) (results : List HandlerOutcome) :
    ∀ it ∈ logItems key results, beginOf it = none := by
  intro it hit
  rcases List.mem_filterMap.mp hit with ⟨r, _, hr⟩
  cases r with
  | error m => cases hr; rfl
  | ok u => cases hr

/-- The begin markers of one event's dispatch trace are exactly that
    event. -/
theorem dispatchEvent_filterMap_beginOf (hs : Handlers) (e : Ev) :
    (dispatchEvent hs e).filterMap beginOf = [e] := by
  rw [dispatchEvent, List.filterMap_cons]
  have hnone : ∀ it ∈
      handlerItems e ((handlersFor hs e.type).map (fun h => h e)) ++
        logItems e.type ((handlersFor hs e.type).map (fun h => h e)),
      beginOf it = none := by
    intro it hit
    rcases List.mem_append.mp hit with h | h
    · exact beginOf_handlerItems e _ it h
    · exact beginOf_logItems e.type _ it h
  rw [List.filterMap_eq_nil_iff.mpr hnone]
  rfl

/-- C5: the dispatch loop pulls queued events strictly in emission order,
    completes every handler invocation of one event before pulling the
    next (the trace of a queue is the concatenation of per-event segments),
    each segment starts with its pull marker, and every item of a segment
    belongs to that segment's event (event_manager.py lines 69-71 and
    96-134: a single FIFO queue, one asyncio.gather awaited per event). -/
theorem eventDispatchOrder (hs : Handlers) (e1 e2 e3 : Ev) :
    dispatchLoop hs [some e1, some e2, some e3] =
      dispatchEvent hs e1 ++ (dispatchEvent hs e2 ++ dispatchEvent hs e3) ∧
    (dispatchLoop hs [some e1, some e2, some e3]).filterMap beginOf =
      [e1, e2, e3] ∧
    (∀ e : Ev, (dispatchEvent hs e).head? =
      some (DispatchItem.pulled e)) ∧
    (∀ e : Ev, ∀ it ∈ dispatchEvent hs e, ∀ x, itemEvent it = some x →
      x = e) := by
  have h1 : dispatchLoop hs [some e1, some e2, some e3] =
      dispatchEvent hs e1 ++ (dispatchEvent hs e2 ++ dispatchEvent hs e3) := by
    simp [dispatchLoop]
  refine ⟨h1, ?_, fun e => rfl, ?_⟩
  · rw [h1]
    simp [List.filterMap_append, dispatchEvent_filterMap_beginOf]
  · intro e it hit x hx
    rcases List.mem_cons.mp hit with rfl | hit2
    · cases hx
      rfl
    · rcases List.mem_append.mp hit2 with h | h
      · rcases List.mem_map.mp h with ⟨p, _, rfl⟩
        cases hx
        rfl
      · rcases List.mem_filterMap.mp h with ⟨r, _, hr⟩
        cases r with
        | error m => cases hr; cases hx
        | ok u => cases hr

/-- All handler indices appear in one event's dispatch trace: the loop
    invokes every registered handler. -/
theorem dispatchEvent_filterMap_idx (hs : Handlers) (e : Ev) :
    (dispatchEvent hs e).filterMap handlerIdxOf =
      List.range (handlersFor hs e.type).length := by
  have hcomp : (handlerIdxOf ∘ fun p : Nat × HandlerOutcome =>
      DispatchItem.handlerRan e p.1 p.2) = some ∘ Prod.fst := by
    funext p
    rfl
  have hlog : List.filterMap handlerIdxOf
      (logItems e.type ((handlersFor hs e.type).map (fun h => h e)))
      = [] := by
    apply List.filterMap_eq_nil_iff.mpr
    intro it hit
    rcases List.mem_filterMap.mp hit with ⟨r, _, hr⟩
    cases r with
    | error m => cases hr; rfl
    | ok u => cases hr
  rw [dispatchEvent, List.filterMap_cons]
  show List.filterMap handlerIdxOf
    (handlerItems e ((handlersFor hs e.type).map (fun h => h e)) ++
     logItems e.type ((handlersFor hs e.type).map (fun h => h e))) = _
  rw [List.filterMap_append, hlog, List.append_nil, handlerItems,
    List.filterMap_map, hcomp, List.filterMap_eq_map, List.enum_map_fst,
    List.length_map]

/-- C6: a handler raising an exception never prevents its sibling handlers
    from being invoked for the same event, never prevents the next queued
    event from being dispatched, never terminates the loop, and the raised
    exception is caught individually and logged (event_manager.py lines
    109-134: asyncio.gather with return_exceptions=True, per-result error
    logging, catch-all around the loop body). -/
theorem handlerIsolation (hs : Handlers) (e : Ev) (rest : List (Option Ev))
    (i : Nat) (hi : i < (handlersFor hs e.type).length) (m : String)
    (hraise : (handlersFor hs e.type).get ⟨i, hi⟩ e = Except.error m) :
    (dispatchEvent hs e).filterMap handlerIdxOf =
      List.range (handlersFor hs e.type).length ∧
    dispatchLoop hs (some e :: rest) =
      dispatchEvent hs e ++ dispatchLoop hs rest ∧
    DispatchItem.errorLogged e.type
        ("Handler error for " ++ e.type ++ ": " ++ m) ∈
      dispatchEvent hs e := by
  refine ⟨dispatchEvent_filterMap_idx hs e, rfl, ?_⟩
  have hmem : Except.error m ∈
      (handlersFor hs e.type).map (fun h => h e) :=
    List.mem_map.mpr
      ⟨(handlersFor hs e.type).get ⟨i, hi⟩,
       List.get_mem _ _ _, hraise⟩
  have hlogmem : DispatchItem.errorLogged e.type
      ("Handler error for " ++ e.type ++ ": " ++ m) ∈
      logItems e.type ((handlersFor hs e.type).map (fun h => h e)) :=
    List.mem_filterMap.mpr ⟨Except.error m, hmem, rfl⟩
  exact List.mem_cons_of_mem _ (List.mem_append_right _ hlogmem)

/-- Witness for handlerIsolation: a concrete table where the first of two
    handlers raises, with a second event queued behind. -/
theorem handlerIsolationWitness :
    0 < (handlersFor demoHandlers demoEv.type).length ∧
    ((dispatchEvent demoHandlers demoEv).filterMap handlerIdxOf =
      List.range (handlersFor demoHandlers demoEv.type).length ∧
    dispatchLoop demoHandlers (some demoEv :: [some demoEv2]) =
      dispatchEvent demoHandlers demoEv ++
        dispatchLoop demoHandlers [some demoEv2] ∧
    DispatchItem.errorLogged demoEv.type
        ("Handler error for " ++ demoEv.type ++ ": " ++ "boom") ∈
      dispatchEvent demoHandlers demoEv) :=
  ⟨by decide,
   handlerIsolation demoHandlers demoEv [some demoEv2] 0 (by decide)
     "boom" rfl⟩

/-- A freshly allocated cell reads back its contents. -/
theorem heap_alloc_get_new (h : Heap) (d : JObj) :
    Heap.get (Heap.alloc h d).1 (Heap.alloc h d).2 = d := by
  simp [Heap.alloc, Heap.get, List.getD_eq_getElem?_getD,
    List.getElem?_concat_length]

/-- Allocation leaves existing cells unchanged. -/
theorem heap_alloc_get_old (h : Heap) (d : JObj) (i : Nat)
    (hi : i < h.cells.length) :
    Heap.get (Heap.alloc h d).1 i = Heap.get h i := by
  simp [Heap.alloc, Heap.get, List.getD_eq_getElem?_getD,
    List.getElem?_append, hi]

/-- Mutating one cell leaves every other cell unchanged. -/
theorem heap_mutate_get_ne (h : Heap) (r i : Nat) (m : DictMut)
    (hne : r ≠ i) :
    Heap.get (Heap.mutate h r m) i = Heap.get h i := by
  simp [Heap.mutate, Heap.get, List.getD_eq_getElem?_getD,
    List.getElem?_set_ne hne]

/-- Any run of mutations aimed at one cell leaves other cells unchanged. -/
theorem heap_foldl_mutate_get_ne (ms : List DictMut) (r i : Nat)
    (hne : r ≠ i) :
    ∀ hh : Heap,
      Heap.get (ms.foldl (fun a mm => Heap.mutate a r mm) hh) i =
        Heap.get hh i := by
  induction ms with
  | nil =>
      intro hh
      rfl
  | cons m rest ih =>
      intro hh
      rw [List.foldl_cons, ih, heap_mutate_get_ne hh r i m hne]

/-- C10: device_info returns a copy of the internal dict: the returned
    reference is distinct from the internal one and reads back the same
    top-level contents; any sequence of dict mutations applied to the
    returned dict leaves the internal dict unchanged; and a second read with
    no intervening ack returns equal contents (app_session.py lines
    241-244: return self._device_info.copy()). -/
theorem deviceInfoReturnsCopy (h : Heap) (internal : Nat)
    (hlt : internal < h.cells.length) (ms : List DictMut) :
    (deviceInfoRead h internal).2 ≠ internal ∧
    Heap.get (deviceInfoRead h internal).1 (deviceInfoRead h internal).2 =
      Heap.get h internal ∧
    Heap.get (deviceInfoRead h internal).1 internal = Heap.get h internal ∧
    Heap.get
        (ms.foldl
          (fun hh mm => Heap.mutate hh (deviceInfoRead h internal).2 mm)
          (deviceInfoRead h internal).1) internal = Heap.get h internal ∧
    Heap.get (deviceInfoRead (deviceInfoRead h internal).1 internal).1
        (deviceInfoRead (deviceInfoRead h internal).1 internal).2 =
      Heap.get h internal := by
  have hr : (deviceInfoRead h internal).2 = h.cells.length := rfl
  have hne : (deviceInfoRead h internal).2 ≠ internal := by
    rw [hr]
    exact (ne_of_gt hlt)
  have hold : Heap.get (deviceInfoRead h internal).1 internal =
      Heap.get h internal :=
    heap_alloc_get_old h (Heap.get h internal) internal hlt
  refine ⟨hne, heap_alloc_get_new h (Heap.get h internal), hold, ?_, ?_⟩
  · rw [heap_foldl_mutate_get_ne ms (deviceInfoRead h internal).2 internal
      hne (deviceInfoRead h internal).1, hold]
  · rw [deviceInfoRead, heap_alloc_get_new, hold]

/-- Witness for deviceInfoReturnsCopy on a concrete heap, mutating the
    returned dict with one assignment and one deletion. -/
theorem deviceInfoReturnsCopyWitness :
    0 < sampleHeap.cells.length ∧
    ((deviceInfoRead sampleHeap 0).2 ≠ 0 ∧
    Heap.get (deviceInfoRead sampleHeap 0).1 (deviceInfoRead sampleHeap 0).2
      = Heap.get sampleHeap 0 ∧
    Heap.get (deviceInfoRead sampleHeap 0).1 0 = Heap.get sampleHeap 0 ∧
    Heap.get
        ([DictMut.set "modelName" (JValue.str "other"),
          DictMut.del "modelName"].foldl
          (fun hh mm => Heap.mutate hh (deviceInfoRead sampleHeap 0).2 mm)
          (deviceInfoRead sampleHeap 0).1) 0 = Heap.get sampleHeap 0 ∧
    Heap.get (deviceInfoRead (deviceInfoRead sampleHeap 0).1 0).1
        (deviceInfoRead (deviceInfoRead sampleHeap 0).1 0).2 =
      Heap.get sampleHeap 0) :=
  ⟨by decide,
   deviceInfoReturnsCopy sampleHeap 0 (by decide)
     [DictMut.set "modelName" (JValue.str "other"),
      DictMut.del "modelName"]⟩

/-- Witness for reconnectBackoffSequence at the first capped index. -/
theorem reconnectBackoffSequenceWitness :
    reconnectDelay 7 = min (5 * (3 / 2 : ℚ) ^ 7) 60 ∧
    reconnectDelay 7 ≤ 60 ∧
    connectResetInterval 10 = 5 :=
  reconnectBackoffSequence 7 10

/-- Witness for eventDispatchOrder at concrete handlers and events. -/
theorem eventDispatchOrderWitness :
    dispatchLoop demoHandlers [some demoEv, some demoEv2, some demoEv] =
      dispatchEvent demoHandlers demoEv ++
        (dispatchEvent demoHandlers demoEv2 ++
          dispatchEvent demoHandlers demoEv) ∧
    (dispatchLoop demoHandlers
        [some demoEv, some demoEv2, some demoEv]).filterMap beginOf =
      [demoEv, demoEv2, demoEv] ∧
    (∀ e : Ev, (dispatchEvent demoHandlers e).head? =
      some (DispatchItem.pulled e)) ∧
    (∀ e : Ev, ∀ it ∈ dispatchEvent demoHandlers e, ∀ x,
      itemEvent it = some x → x = e) :=
  eventDispatchOrder demoHandlers demoEv demoEv2 demoEv

/-- Witness for disconnectIdempotentState at a concrete client and three
    calls. -/
theorem disconnectIdempotentStateWitness :
    (WSClient.disconnect sampleClient).running = false ∧
    (WSClient.disconnect sampleClient).reconnectTaskActive = false ∧
    (WSClient.disconnect sampleClient).receiveTaskActive = false ∧
    (WSClient.disconnect sampleClient).websocketOpen = false ∧
    WSClient.connState
        (WSClient.disconnect (WSClient.disconnect sampleClient)) =
      WSClient.connState (WSClient.disconnect sampleClient) ∧
    ((WSClient.disconnect)^[3] sampleClient).onDisconnectCalls =
      sampleClient.onDisconnectCalls +
        (if sampleClient.hasOnDisconnect = true then 3 else 0) :=
  disconnectIdempotentState sampleClient 3

end MentraOS
